import Mathlib

/-!
Verification development for the NEMO grid adapter (`parcels/nemo_grid.py`).

The Python module is embedded shallowly:

* floating-point values are modelled as exact rationals (`ℚ`); a float that
  may be NaN is `Option ℚ` with `none` playing the role of NaN;
* numpy arrays of rank 1 and 2 are `List ℚ` / `List (List ℚ)`; the
  coordinate attributes of a `NEMOGrid`, which may hold arrays of either
  rank, use the sum type `Arr`;
* a netCDF dataset is a finite association list of named dimensions and
  named variables (`NCFile`); scalar attributes attached to a variable are
  an association list on the variable;
* fallible steps (absent files, absent variables, shape mismatches of
  slice assignments, out-of-range indexing, invalid spline inputs) return
  `Except Err`, mirroring the Python exceptions the same operations raise.

Slice assignment (`var[y, :] = line`) is modelled as requiring the source
to be a rank-1 array whose length equals the target slice exactly; numpy's
additional degenerate broadcast of length-1 sources is not modelled.
-/

namespace Parcels

/-- A float value that may be NaN: `none` is NaN. -/
abbrev FVal := Option ℚ

/-- A rank-1 float array. -/
abbrev Line := List ℚ

/-- A rank-2 float array (list of rows). -/
abbrev Mat := List (List ℚ)

/-- A rank-2 float array whose entries may be NaN. -/
abbrev OMat := List (List FVal)

/-- A numpy array of rank 1 or rank 2 holding plain (non-NaN) floats, as
stored in the coordinate attributes of a grid object. -/
inductive Arr where
  | a1 : Line → Arr
  | a2 : Mat → Arr
deriving DecidableEq, Repr

/-- Abstract error taxonomy for the exceptions the Python code can raise:
`missingFile` (opening an absent dataset), `missingVariable` (absent
variable name in a dataset), `broadcastError` (numpy shape mismatch in a
slice assignment), `indexError` (out-of-range indexing/slicing),
`attributeError` (using the `None` class defaults), `valueError` (negative
dimension size passed to `createDimension`), `splineError` (SciPy input
validation on interpolator construction). -/
inductive Err where
  | missingFile
  | missingVariable
  | broadcastError
  | indexError
  | attributeError
  | valueError
  | splineError
deriving DecidableEq, Repr

/-- Data payload of a netCDF variable: rank 1 (depth, time), rank 2
(coordinates) or rank 4 (velocities, which may hold NaN). -/
inductive NCData where
  | d1 : Line → NCData
  | d2 : Mat → NCData
  | d4 : List (List OMat) → NCData
deriving DecidableEq, Repr

/-- A netCDF variable: its dimension names, its data, and its scalar
attributes (`valid_min`/`valid_max`). -/
structure NCVar where
  dims : List String
  data : NCData
  attrs : List (String × ℚ) := []
deriving DecidableEq, Repr

/-- A netCDF dataset: named dimensions (`none` size = unlimited) and named
variables. -/
structure NCFile where
  dims : List (String × Option Nat)
  vars : List (String × NCVar)
deriving DecidableEq, Repr

/-- The in-memory grid store, as populated programmatically before
`write`.  Mirrors the class attributes of `NEMOGrid`: `depth` and
`time_counter` default to the Python `None`; integer extents default to 0.
(The `None` defaults of the four coordinate arrays and of `U`/`V` are not
modelled separately: `write` fails on them just as it fails on any
ill-shaped array, and every claim quantifies over populated stores.) -/
structure NEMOGrid where
  x : Nat := 0
  y : Nat := 0
  depth : Option Line := none
  time_counter : Option Line := none
  lon_u : Arr := .a1 []
  lat_u : Arr := .a1 []
  lon_v : Arr := .a1 []
  lat_v : Arr := .a1 []
  U : OMat := []
  V : OMat := []
deriving DecidableEq, Repr

/-- `var[i, :] = src` / `var[:, i] = src` source check: the assigned source
must be a rank-1 array of exactly the slice's length.  A rank-2 source
raises a numpy broadcast error. -/
def setSlice1 (src : Arr) (n : Nat) : Except Err Line :=
  match src with
  | .a1 v => if v.length = n then .ok v else .error .broadcastError
  | .a2 _ => .error .broadcastError

/-- `arr[0]` on a rank-1 array; empty arrays raise `IndexError`.  On a
rank-2 array Python would return the first row (an array); that value is
only ever used as a `valid_min`/`valid_max` attribute and the claims never
reach that state, so it is folded into `indexError` here. -/
def arrFirst (src : Arr) : Except Err ℚ :=
  match src with
  | .a1 v =>
    match v.head? with
    | some q => .ok q
    | none => .error .indexError
  | .a2 _ => .error .indexError

/-- `arr[-1]` on a rank-1 array (last element). -/
def arrLast (src : Arr) : Except Err ℚ :=
  match src with
  | .a1 v =>
    match v.getLast? with
    | some q => .ok q
    | none => .error .indexError
  | .a2 _ => .error .indexError

/-- Effect of `for i in idxs: var[i, :] = src` on a variable whose rows are
exactly the indices of the loop: each iteration re-checks the source shape
and contributes one row. -/
def broadcastRows (idxs : List Nat) (src : Arr) (w : Nat) : Except Err Mat :=
  match idxs with
  | [] => .ok []
  | _ :: t =>
    match setSlice1 src w with
    | .error e => .error e
    | .ok r =>
      match broadcastRows t src w with
      | .error e => .error e
      | .ok rest => .ok (r :: rest)

/-- Effect of `for i in idxs: var[:, i] = src` on a variable with `h` rows:
each iteration checks the source against the column height and contributes
one column; with no iterations the rows stay empty. -/
def broadcastCols (idxs : List Nat) (src : Arr) (h : Nat) : Except Err Mat :=
  match idxs with
  | [] => .ok (List.replicate h [])
  | _ :: t =>
    match setSlice1 src h with
    | .error e => .error e
    | .ok c =>
      match broadcastCols t src h with
      | .error e => .error e
      | .ok rest => .ok (List.zipWith (· :: ·) c rest)

/-- `m.length = r` and every row has length `c` (the shape check numpy
performs before a rank-2 slice assignment). -/
def isRect (m : List (List α)) (r c : Nat) : Bool :=
  (m.length == r) && m.all (fun row => row.length == c)

/-- `np.transpose` on a rectangular rank-2 array (row `j` of the result is
column `j` of the argument; the column count is read off the first row). -/
def npT (m : OMat) : OMat :=
  (List.range (m.headD []).length).map (fun j => m.map (fun r => r.getD j none))

/-- Loop indices of `for y in range(self.y)` filling the U file's
`nav_lon`, one row per iteration. -/
def NEMOGrid.uRowLoop (g : NEMOGrid) : List Nat := List.range g.y

/-- Loop indices of `for x in range(self.x-1)` filling the U file's
`nav_lat`, one column per iteration. -/
def NEMOGrid.uColLoop (g : NEMOGrid) : List Nat := List.range (g.x - 1)

/-- Loop indices of `for y in range(self.y-1)` filling the V file's
`nav_lon`, one row per iteration. -/
def NEMOGrid.vRowLoop (g : NEMOGrid) : List Nat := List.range (g.y - 1)

/-- Loop indices of `for x in range(self.x)` filling the V file's
`nav_lat`, one column per iteration. -/
def NEMOGrid.vColLoop (g : NEMOGrid) : List Nat := List.range g.x

/-- `NEMOGrid.write(filename)`, statement by statement.  The two returned
datasets are the contents of the files `filename_U` and `filename_V`.
Notes kept from the source:
* `createDimension('x', self.x-1)` rejects the negative size arising when
  `x = 0` (and symmetrically `y = 0` for the V file), hence the two
  `valueError` guards;
* `self.depth.size` / assigning `self.time_counter` raise on the `None`
  class defaults, hence the `attributeError` guards;
* the velocity variable records only its written `[0, 0, :, :]` slice; the
  netCDF fill values of any further depth levels are never read back and
  are not modelled. -/
def NEMOGrid.write (g : NEMOGrid) : Except Err (NCFile × NCFile) :=
  match g.depth with
  | none => .error .attributeError
  | some depth =>
  match g.time_counter with
  | none => .error .attributeError
  | some tc =>
  if g.x < 1 then .error .valueError else
  -- for y in range(self.y): dset_u['nav_lon'][y, :] = self.lon_u
  match broadcastRows g.uRowLoop g.lon_u (g.x - 1) with
  | .error e => .error e
  | .ok navLonU =>
  -- dset_u['nav_lon'].valid_min = self.lon_u[0]; .valid_max = self.lon_u[-1]
  match arrFirst g.lon_u with
  | .error e => .error e
  | .ok lonU0 =>
  match arrLast g.lon_u with
  | .error e => .error e
  | .ok lonUL =>
  -- for x in range(self.x-1): dset_u['nav_lat'][:, x] = self.lat_u
  match broadcastCols g.uColLoop g.lat_u g.y with
  | .error e => .error e
  | .ok navLatU =>
  -- dset_u['nav_lat'].valid_min = self.lat_u[0]; .valid_max = self.lat_u[-1]
  match arrFirst g.lat_u with
  | .error e => .error e
  | .ok latU0 =>
  match arrLast g.lat_u with
  | .error e => .error e
  | .ok latUL =>
  -- dset_u['vozocrtx'][0, 0, :, :] = np.transpose(self.U)
  if ¬ isRect (npT g.U) g.y (g.x - 1) then .error .broadcastError else
  -- dset_v.createDimension('y', self.y-1)
  if g.y < 1 then .error .valueError else
  -- for y in range(self.y-1): dset_v['nav_lon'][y, :] = self.lon_v
  match broadcastRows g.vRowLoop g.lon_v g.x with
  | .error e => .error e
  | .ok navLonV =>
  -- for x in range(self.x): dset_v['nav_lat'][:, x] = self.lat_v
  match broadcastCols g.vColLoop g.lat_v (g.y - 1) with
  | .error e => .error e
  | .ok navLatV =>
  -- dset_v['vomecrty'][0, 0, :, :] = np.transpose(self.V)
  if ¬ isRect (npT g.V) (g.y - 1) g.x then .error .broadcastError else
  .ok
    ({ dims := [("x", some (g.x - 1)), ("y", some g.y),
                ("depthu", some depth.length), ("time_counter", none)]
       vars := [
        ("nav_lon", { dims := ["y", "x"], data := .d2 navLonU,
                      attrs := [("valid_min", lonU0), ("valid_max", lonUL)] }),
        ("nav_lat", { dims := ["y", "x"], data := .d2 navLatU,
                      attrs := [("valid_min", latU0), ("valid_max", latUL)] }),
        ("depthu", { dims := ["depthu"], data := .d1 depth }),
        ("time_counter", { dims := ["time_counter"], data := .d1 tc }),
        ("vozocrtx", { dims := ["time_counter", "depthu", "y", "x"],
                       data := .d4 [[npT g.U]] })] },
     { dims := [("x", some g.x), ("y", some (g.y - 1)),
                ("depthv", some depth.length), ("time_counter", none)]
       vars := [
        -- the V file's valid_min/valid_max are taken from the U-stagger
        -- lines lon_u / lat_u, exactly as in the source
        ("nav_lon", { dims := ["y", "x"], data := .d2 navLonV,
                      attrs := [("valid_min", lonU0), ("valid_max", lonUL)] }),
        ("nav_lat", { dims := ["y", "x"], data := .d2 navLatV,
                      attrs := [("valid_min", latU0), ("valid_max", latUL)] }),
        ("depthv", { dims := ["depthv"], data := .d1 depth }),
        ("time_counter", { dims := ["time_counter"], data := .d1 tc }),
        ("vomecrty", { dims := ["time_counter", "depthv", "y", "x"],
                       data := .d4 [[npT g.V]] })] })

/-- Writing to base path `filename` in filesystem `fs`: the files
`filename_U` and `filename_V` are created (shadowing earlier entries). -/
def NEMOGrid.writeTo (fs : List (String × NCFile)) (filename : String)
    (g : NEMOGrid) : Except Err (List (String × NCFile)) :=
  match g.write with
  | .error e => .error e
  | .ok (fU, fV) => .ok ((filename ++ "_V", fV) :: (filename ++ "_U", fU) :: fs)

/-- `self.U[np.isnan(self.U)] = 0.`: a NaN entry becomes `0`, any other
entry keeps its value. -/
def sanv (o : FVal) : ℚ := o.getD 0

/-- NaN sanitization of a whole velocity array. -/
def sanitize (m : OMat) : Mat := m.map (List.map sanv)

/-- `xs` is strictly increasing (the coordinate-vector requirement of the
interpolation primitive). -/
def chainLt : List ℚ → Bool
  | a :: b :: t => (decide (a < b)) && chainLt (b :: t)
  | _ => true

/-- Modelled from the spec: the bivariate degree-1 interpolation primitive
(`scipy.interpolate.RectBivariateSpline` with `kx = ky = 1`) is an external
collaborator; the spec describes it as accepting two monotonic 1-D
coordinate vectors and a matching 2-D value grid and returning a sampler
that is bilinear — exact at grid nodes, linear between them, with linear
extension outside the hull.  `Spline` records the fitted data. -/
structure Spline where
  xs : List ℚ
  ys : List ℚ
  zs : Mat
deriving DecidableEq, Repr

/-- Modelled from the spec: piecewise-linear interpolation along one axis.
`v` gives the data values at the nodes `xs`; a query left of the second
node (or in the last interval) is interpolated — or linearly extended —
on the current interval, otherwise the first node is dropped. -/
def interp1 : List ℚ → (Nat → ℚ) → ℚ → ℚ
  | x0 :: x1 :: rest, v, q =>
    if q ≤ x1 ∨ rest = [] then
      v 0 + (v 1 - v 0) * (q - x0) / (x1 - x0)
    else
      interp1 (x1 :: rest) (fun n => v (n + 1)) q
  | [_], v, _ => v 0
  | [], _, _ => 0

/-- Modelled from the spec: sampling the fitted surface at `(la, lo)` —
tensor-product piecewise-bilinear interpolation. -/
def Spline.ev (s : Spline) (la lo : ℚ) : ℚ :=
  interp1 s.xs (fun i => interp1 s.ys (fun j => ((s.zs.getD i []).getD j 0)) lo) la

/-- Modelled from the spec: constructor validation of the interpolation
primitive — both coordinate vectors strictly increasing with at least
`k + 1 = 2` entries, and the value grid of matching shape. -/
def mkSpline (xs ys : List ℚ) (z : Mat) : Except Err Spline :=
  if chainLt xs && chainLt ys
      && decide (2 ≤ xs.length) && decide (2 ≤ ys.length)
      && isRect z xs.length ys.length then
    .ok ⟨xs, ys, z⟩
  else
    .error .splineError

/-- `var[:, 0]` on a rank-2 variable payload: the first column.  Requires
every row to be nonempty; any other rank raises on indexing or fails the
spline validation right after. -/
def col0 (d : NCData) : Except Err Line :=
  match d with
  | .d2 m => if m.all (fun r => decide (1 ≤ r.length)) then
      .ok (m.map (fun r => r.getD 0 0)) else .error .indexError
  | _ => .error .indexError

/-- `var[0, :]` on a rank-2 variable payload: the first row. -/
def row0 (d : NCData) : Except Err Line :=
  match d with
  | .d2 m =>
    match m.head? with
    | some r => .ok r
    | none => .error .indexError
  | _ => .error .indexError

/-- `var[0, 0, :, :]` on a rank-4 variable payload: the single depth-level,
single time-step slice the reader extracts. -/
def slice00 (d : NCData) : Except Err OMat :=
  match d with
  | .d4 tl =>
    match tl.head? with
    | some dl =>
      match dl.head? with
      | some m => .ok m
      | none => .error .indexError
    | none => .error .indexError
  | _ => .error .indexError

/-- The interpolator-construction fragment of `NEMOGrid.__init__`: NaN
sanitization of the field, then
`RectBivariateSpline(lat[:, 0], lon[0, :], field, kx=1, ky=1)`. -/
def buildInterp (lat lon : NCData) (field : OMat) : Except Err Spline :=
  match col0 lat with
  | .error e => .error e
  | .ok xs =>
  match row0 lon with
  | .error e => .error e
  | .ok ys => mkSpline xs ys (sanitize field)

/-- A `NEMOGrid` instance as produced by `__init__(filename)`: the
constructor sets only the coordinate variables, the sanitized velocity
slices and the two interpolators; `x`, `y`, `depth` and `time_counter`
keep their class-attribute defaults (`0` / `None`).  The retained dataset
handles `dset_u`/`dset_v` are not modelled. -/
structure NEMOGridInst where
  x : Nat := 0
  y : Nat := 0
  depth : Option Line := none
  time_counter : Option Line := none
  lon_u : NCVar
  lat_u : NCVar
  lon_v : NCVar
  lat_v : NCVar
  U : Mat
  V : Mat
  interp_u : Spline
  interp_v : Spline
deriving DecidableEq, Repr

/-- Variable lookup `dset['name']`; netCDF raises (spec taxonomy:
`MissingVariableError`) when the name is absent. -/
def getVar (f : NCFile) (name : String) : Except Err NCVar :=
  match f.vars.lookup name with
  | some v => .ok v
  | none => .error .missingVariable

/-- `NEMOGrid.__init__(filename)` with a filename: opens `filename_U` and
`filename_V` in the filesystem `fs` (spec taxonomy: `MissingFileError`
when absent), extracts the coordinate variables and the `[0, 0, :, :]`
velocity slices, sanitizes NaNs, and fits the two interpolators. -/
def NEMOGrid.ofPath (fs : List (String × NCFile)) (filename : String) :
    Except Err NEMOGridInst :=
  match fs.lookup (filename ++ "_U") with
  | none => .error .missingFile
  | some dsetU =>
  match fs.lookup (filename ++ "_V") with
  | none => .error .missingFile
  | some dsetV =>
  match getVar dsetU "nav_lon" with
  | .error e => .error e
  | .ok lonU =>
  match getVar dsetU "nav_lat" with
  | .error e => .error e
  | .ok latU =>
  match getVar dsetV "nav_lon" with
  | .error e => .error e
  | .ok lonV =>
  match getVar dsetV "nav_lat" with
  | .error e => .error e
  | .ok latV =>
  -- self.U = self.dset_u['vozocrtx'][0, 0, :, :]
  match getVar dsetU "vozocrtx" with
  | .error e => .error e
  | .ok uVar =>
  match slice00 uVar.data with
  | .error e => .error e
  | .ok uRaw =>
  -- self.V = self.dset_v['vomecrty'][0, 0, :, :]
  match getVar dsetV "vomecrty" with
  | .error e => .error e
  | .ok vVar =>
  match slice00 vVar.data with
  | .error e => .error e
  | .ok vRaw =>
  -- NaN hack, then the two spline constructions
  match col0 latU.data with
  | .error e => .error e
  | .ok xu =>
  match row0 lonU.data with
  | .error e => .error e
  | .ok yu =>
  match mkSpline xu yu (sanitize uRaw) with
  | .error e => .error e
  | .ok iu =>
  match col0 latV.data with
  | .error e => .error e
  | .ok xv =>
  match row0 lonV.data with
  | .error e => .error e
  | .ok yv =>
  match mkSpline xv yv (sanitize vRaw) with
  | .error e => .error e
  | .ok iv =>
    .ok { lon_u := lonU, lat_u := latU, lon_v := lonV, lat_v := latV,
          U := sanitize uRaw, V := sanitize vRaw,
          interp_u := iu, interp_v := iv }

/-- The class-level state of `NEMOGrid`: the mutable class attribute
`_particles = []`, created once when the class is defined and shared by
every instance (particles are identified by opaque ids). -/
structure NEMOClassState where
  particlesAttr : List Nat
deriving DecidableEq, Repr

/-- The per-object particle view of one instance: the entry the object's
own `__dict__` would hold for `_particles`.  The class code never assigns
`self._particles`, so for every instance it creates this stays `none` and
attribute lookup falls through to the class attribute. -/
structure NEMOObj where
  instParticles : Option (List Nat) := none
deriving DecidableEq, Repr

/-- A freshly constructed instance (`NEMOGrid()`): `__init__` never touches
`_particles`, so the object owns no instance-level entry. -/
def NEMOObj.new : NEMOObj := {}

/-- Python attribute lookup for `self._particles`: the instance `__dict__`
first, else the class attribute. -/
def NEMOObj.particles (o : NEMOObj) (s : NEMOClassState) : List Nat :=
  o.instParticles.getD s.particlesAttr

/-- `add_particle(self, p)`: `self._particles.append(p)` mutates in place
whichever list attribute lookup found — the shared class list whenever the
object has no instance-level entry. -/
def NEMOObj.add_particle (o : NEMOObj) (s : NEMOClassState) (p : Nat) :
    NEMOObj × NEMOClassState :=
  match o.instParticles with
  | none => (o, { particlesAttr := s.particlesAttr ++ [p] })
  | some l => ({ instParticles := some (l ++ [p]) }, s)

/-- `write` seen as a state-passing method call: the body of the Python
method assigns only to locals and to the two freshly created datasets,
never to `self` and never to the class-level particle storage, so both the
receiver and the class state pass through unchanged alongside the produced
file pair. -/
def NEMOGrid.writeM (g : NEMOGrid) (s : NEMOClassState) :
    Except Err (NCFile × NCFile) × NEMOGrid × NEMOClassState :=
  (g.write, g, s)

/-- Size of a named dimension of a dataset (`none` size = unlimited). -/
def NCFile.dimSize (f : NCFile) (name : String) : Option (Option Nat) :=
  f.dims.lookup name

/-- A named scalar attribute of a named variable of a dataset. -/
def NCFile.varAttr (f : NCFile) (vname aname : String) : Option ℚ :=
  match f.vars.lookup vname with
  | some v => v.attrs.lookup aname
  | none => none

/-- The rows of a named rank-2 variable of a dataset. -/
def NCFile.navRows (f : NCFile) (name : String) : Mat :=
  match f.vars.lookup name with
  | some v =>
    match v.data with
    | .d2 m => m
    | _ => []
  | none => []

/-- Column `j` of a rank-2 array. -/
def colOf (m : Mat) (j : Nat) : Line := m.map (fun r => r.getD j 0)

/-- A small fully populated store (`x = 3`, `y = 3`) used to instantiate
the theorems below on concrete data: 1-D coordinate lines of the lengths
the write path expects, strictly increasing, `U` of shape
`(x-1) × y = 2 × 3` and `V` of shape `x × (y-1) = 3 × 2`. -/
def gdemo : NEMOGrid :=
  { x := 3, y := 3, depth := some [0], time_counter := some [0],
    lon_u := .a1 [0, 1], lat_u := .a1 [0, 1, 2],
    lon_v := .a1 [0, 1, 2], lat_v := .a1 [0, 1],
    U := [[some 1, some 2, some 3], [some 4, some 5, some 6]],
    V := [[some 1, some 2], [some 3, some 4], [some 5, some 6]] }

/-- The U file `gdemo.write` produces. -/
def fUdemo : NCFile :=
  { dims := [("x", some 2), ("y", some 3), ("depthu", some 1),
             ("time_counter", none)]
    vars := [
      ("nav_lon", { dims := ["y", "x"], data := .d2 [[0, 1], [0, 1], [0, 1]],
                    attrs := [("valid_min", 0), ("valid_max", 1)] }),
      ("nav_lat", { dims := ["y", "x"], data := .d2 [[0, 0], [1, 1], [2, 2]],
                    attrs := [("valid_min", 0), ("valid_max", 2)] }),
      ("depthu", { dims := ["depthu"], data := .d1 [0] }),
      ("time_counter", { dims := ["time_counter"], data := .d1 [0] }),
      ("vozocrtx", { dims := ["time_counter", "depthu", "y", "x"],
                     data := .d4 [[[[some 1, some 4], [some 2, some 5],
                                    [some 3, some 6]]]] })] }

/-- The V file `gdemo.write` produces. -/
def fVdemo : NCFile :=
  { dims := [("x", some 3), ("y", some 2), ("depthv", some 1),
             ("time_counter", none)]
    vars := [
      ("nav_lon", { dims := ["y", "x"], data := .d2 [[0, 1, 2], [0, 1, 2]],
                    attrs := [("valid_min", 0), ("valid_max", 1)] }),
      ("nav_lat", { dims := ["y", "x"], data := .d2 [[0, 0, 0], [1, 1, 1]],
                    attrs := [("valid_min", 0), ("valid_max", 2)] }),
      ("depthv", { dims := ["depthv"], data := .d1 [0] }),
      ("time_counter", { dims := ["time_counter"], data := .d1 [0] }),
      ("vomecrty", { dims := ["time_counter", "depthv", "y", "x"],
                     data := .d4 [[[[some 1, some 3, some 5],
                                    [some 2, some 4, some 6]]]] })] }

/-- A degenerate store with `y = 1`: the V `nav_lon` row loop
`for y in range(self.y-1)` runs zero times, so `lon_v` is never read and
`write` succeeds even though `lon_v` here is a rank-2 array. -/
def cex10 : NEMOGrid :=
  { x := 3, y := 1, depth := some [0], time_counter := some [0],
    lon_u := .a1 [0, 1], lat_u := .a1 [7],
    lon_v := .a2 [[5]], lat_v := .a1 [],
    U := [[some 1], [some 2]],
    V := [[], [], []] }

/-- A store whose four coordinate lattices are all rank-2 `y × x` arrays,
as the spec's data model describes them. -/
def gall2 : NEMOGrid :=
  { x := 3, y := 3, depth := some [0], time_counter := some [0],
    lon_u := .a2 [[0, 1], [0, 1], [0, 1]],
    lat_u := .a2 [[0, 0], [1, 1], [2, 2]],
    lon_v := .a2 [[0, 1, 2], [0, 1, 2]],
    lat_v := .a2 [[0, 0, 0], [1, 1, 1]],
    U := [[some 1, some 2, some 3], [some 4, some 5, some 6]],
    V := [[some 1, some 2], [some 3, some 4], [some 5, some 6]] }

theorem setSlice1_ok_iff {src : Arr} {n : Nat} {l : Line} :
    setSlice1 src n = .ok l ↔ src = .a1 l ∧ l.length = n := by
  cases src with
  | a1 v =>
    simp only [setSlice1]
    split
    · next hlen =>
      constructor
      · intro h; cases h; exact ⟨rfl, hlen⟩
      · rintro ⟨hv, _⟩; cases hv; rfl
    · next hlen =>
      constructor
      · intro h; cases h
      · rintro ⟨hv, hl⟩; cases hv; exact absurd hl hlen
  | a2 m => simp [setSlice1]

theorem arrFirst_ok {src : Arr} {q : ℚ} (h : arrFirst src = .ok q) :
    ∃ l, src = .a1 l ∧ l.head? = some q := by
  cases src with
  | a1 v =>
    refine ⟨v, rfl, ?_⟩
    revert h
    simp only [arrFirst]
    cases v.head? <;> simp_all
  | a2 m => simp [arrFirst] at h

theorem arrLast_ok {src : Arr} {q : ℚ} (h : arrLast src = .ok q) :
    ∃ l, src = .a1 l ∧ l.getLast? = some q := by
  cases src with
  | a1 v =>
    refine ⟨v, rfl, ?_⟩
    revert h
    simp only [arrLast]
    cases v.getLast? <;> simp_all
  | a2 m => simp [arrLast] at h

theorem broadcastRows_const {src : Arr} {w : Nat} {l : Line}
    (h : setSlice1 src w = .ok l) (idxs : List Nat) :
    broadcastRows idxs src w = .ok (idxs.map fun _ => l) := by
  induction idxs with
  | nil => simp [broadcastRows]
  | cons a t ih => simp [broadcastRows, h, ih]

theorem broadcastRows_ok {idxs : List Nat} {src : Arr} {w : Nat} {m : Mat}
    (h : broadcastRows idxs src w = .ok m) :
    (idxs = [] ∧ m = []) ∨
      ∃ l, setSlice1 src w = .ok l ∧ m = idxs.map fun _ => l := by
  induction idxs generalizing m with
  | nil =>
    left
    simp only [broadcastRows] at h
    cases h
    exact ⟨rfl, rfl⟩
  | cons a t ih =>
    right
    simp only [broadcastRows] at h
    cases hs : setSlice1 src w with
    | error e => rw [hs] at h; cases h
    | ok r =>
      rw [hs] at h
      cases hr : broadcastRows t src w with
      | error e => rw [hr] at h; cases h
      | ok rest =>
        rw [hr] at h
        cases h
        rcases ih hr with ⟨ht, hrest⟩ | ⟨l, hl, hrest⟩
        · exact ⟨r, rfl, by simp [ht, hrest]⟩
        · rw [hs] at hl
          cases hl
          exact ⟨r, rfl, by simp [hrest]⟩

theorem zipWith_cons_map (l : Line) (f : ℚ → List ℚ) :
    List.zipWith (· :: ·) l (l.map f) = l.map (fun v => v :: f v) := by
  induction l with
  | nil => rfl
  | cons a t ih => simp [ih]

theorem zipWith_cons_replicate (l : Line) (c : List ℚ) :
    List.zipWith (· :: ·) l (List.replicate l.length c) = l.map (fun v => v :: c) := by
  have := zipWith_cons_map l (fun _ => c)
  rwa [List.map_const' l c] at this

theorem broadcastCols_const {src : Arr} {h : Nat} {l : Line}
    (hok : setSlice1 src h = .ok l) (idxs : List Nat) :
    broadcastCols idxs src h = .ok (l.map fun v => List.replicate idxs.length v) := by
  have hlen : l.length = h := (setSlice1_ok_iff.mp hok).2
  induction idxs with
  | nil =>
    simp only [broadcastCols, List.length_nil]
    rw [← hlen, ← List.map_const' l ([] : List ℚ)]
    rfl
  | cons a t ih =>
    simp only [broadcastCols, hok, ih, List.length_cons]
    rw [zipWith_cons_map l (fun v => List.replicate t.length v)]
    simp [List.replicate_succ]

theorem broadcastCols_ok {idxs : List Nat} {src : Arr} {h : Nat} {m : Mat}
    (hok : broadcastCols idxs src h = .ok m) :
    (idxs = [] ∧ m = List.replicate h []) ∨
      ∃ l, setSlice1 src h = .ok l ∧
        m = l.map fun v => List.replicate idxs.length v := by
  cases idxs with
  | nil =>
    left
    simp only [broadcastCols] at hok
    cases hok
    exact ⟨rfl, rfl⟩
  | cons a t =>
    right
    simp only [broadcastCols] at hok
    cases hs : setSlice1 src h with
    | error e => rw [hs] at hok; cases hok
    | ok l =>
      rw [hs] at hok
      cases hr : broadcastCols t src h with
      | error e => rw [hr] at hok; cases hok
      | ok rest =>
        rw [hr] at hok
        cases hok
        refine ⟨l, rfl, ?_⟩
        have := broadcastCols_const hs t
        rw [hr] at this
        cases this
        rw [zipWith_cons_map l (fun v => List.replicate t.length v)]
        simp [List.replicate_succ]

theorem getD_replicate_of_lt {n j : Nat} (hj : j < n) (v d : ℚ) :
    (List.replicate n v).getD j d = v := by
  rw [List.getD_eq_getElem _ _ (by simpa using hj)]
  exact List.getElem_replicate ..

theorem head?_replicate_of_pos {n : Nat} (hn : 1 ≤ n) (v : Line) :
    (List.replicate n v).head? = some v := by
  cases n with
  | zero => omega
  | succ m => rfl

theorem isRect_sanitize {m : OMat} {r c : Nat} (h : isRect m r c = true) :
    isRect (sanitize m) r c = true := by
  simp only [isRect, sanitize, Bool.and_eq_true, beq_iff_eq, List.all_eq_true,
    List.length_map] at h ⊢
  refine ⟨h.1, ?_⟩
  intro row hrow
  rcases List.mem_map.mp hrow with ⟨r0, hr0, hmap⟩
  subst hmap
  simpa using h.2 r0 hr0

theorem mkSpline_ok {xs ys : List ℚ} {z : Mat} {s : Spline}
    (h : mkSpline xs ys z = .ok s) :
    s = ⟨xs, ys, z⟩ ∧ chainLt xs = true ∧ chainLt ys = true ∧
      2 ≤ xs.length ∧ 2 ≤ ys.length ∧ isRect z xs.length ys.length = true := by
  unfold mkSpline at h
  split at h
  · next hc =>
    cases h
    simp only [Bool.and_eq_true, decide_eq_true_eq] at hc
    exact ⟨rfl, hc.1.1.1.1, hc.1.1.1.2, hc.1.1.2, hc.1.2, hc.2⟩
  · cases h

theorem chainLt_head_lt {a : ℚ} {l : List ℚ} (h : chainLt (a :: l) = true)
    {k : Nat} (hk : k < l.length) : a < l.get ⟨k, hk⟩ := by
  induction l generalizing a k with
  | nil => simp at hk
  | cons b t ih =>
    rw [chainLt, Bool.and_eq_true, decide_eq_true_eq] at h
    cases k with
    | zero => exact h.1
    | succ k' =>
      have hk' : k' < t.length := by simpa using hk
      exact lt_trans h.1 (ih h.2 hk')

theorem interp1_node (xs : List ℚ) (v : Nat → ℚ) (i : Nat) (hi : i < xs.length)
    (hs : chainLt xs = true) : interp1 xs v (xs.get ⟨i, hi⟩) = v i := by
  match xs, i with
  | [x0], 0 => simp [interp1]
  | x0 :: x1 :: rest, 0 =>
    have h01 : x0 < x1 := by
      rw [chainLt, Bool.and_eq_true, decide_eq_true_eq] at hs
      exact hs.1
    show interp1 (x0 :: x1 :: rest) v x0 = v 0
    rw [interp1, if_pos (Or.inl (le_of_lt h01))]
    simp [sub_self]
  | x0 :: x1 :: rest, 1 =>
    have h01 : x0 < x1 := by
      rw [chainLt, Bool.and_eq_true, decide_eq_true_eq] at hs
      exact hs.1
    have hne : x1 - x0 ≠ 0 := sub_ne_zero_of_ne (ne_of_gt h01)
    show interp1 (x0 :: x1 :: rest) v x1 = v 1
    rw [interp1, if_pos (Or.inl (le_refl x1))]
    rw [mul_div_assoc, div_self hne]
    ring
  | x0 :: x1 :: rest, (n + 2) =>
    have hrest : n < rest.length := by simpa using hi
    have hrne : rest ≠ [] := by
      intro hr
      rw [hr] at hrest
      simp at hrest
    have htail : chainLt (x1 :: rest) = true := by
      rw [chainLt, Bool.and_eq_true] at hs
      exact hs.2
    have hq : x1 < rest.get ⟨n, hrest⟩ := chainLt_head_lt htail hrest
    have hget : (x0 :: x1 :: rest).get ⟨n + 2, hi⟩ = rest.get ⟨n, hrest⟩ := rfl
    rw [hget, interp1, if_neg (by push_neg; exact ⟨hq, hrne⟩)]
    · have hi' : n + 1 < (x1 :: rest).length := by simpa using hrest
      have hget' : (x1 :: rest).get ⟨n + 1, hi'⟩ = rest.get ⟨n, hrest⟩ := rfl
      have := interp1_node (x1 :: rest) (fun k => v (k + 1)) (n + 1) hi' htail
      rw [hget'] at this
      exact this

theorem Spline.ev_node (s : Spline) (i j : Nat) (hi : i < s.xs.length)
    (hj : j < s.ys.length) (hx : chainLt s.xs = true) (hy : chainLt s.ys = true) :
    s.ev (s.xs.get ⟨i, hi⟩) (s.ys.get ⟨j, hj⟩) = (s.zs.getD i []).getD j 0 := by
  unfold Spline.ev
  rw [interp1_node s.xs _ i hi hx, interp1_node s.ys _ j hj hy]

/-- Inversion of a successful `write`: everything the success of the write
path forces about the store, together with the exact contents of the two
produced files.  (`lat_u`'s length is only forced when the U `nav_lat`
column loop runs, i.e. when `x ≥ 2`; `lon_v` is only touched at all when
the V `nav_lon` row loop runs, i.e. when `y ≥ 2`.) -/
theorem write_ok_inv {g : NEMOGrid} {fU fV : NCFile}
    (h : g.write = .ok (fU, fV)) :
    ∃ dp tc lu la qv u0 uL a0 aL m2 mV,
      g.depth = some dp ∧ g.time_counter = some tc ∧
      1 ≤ g.x ∧ 1 ≤ g.y ∧
      g.lon_u = .a1 lu ∧ lu.length = g.x - 1 ∧
      lu.head? = some u0 ∧ lu.getLast? = some uL ∧
      g.lat_u = .a1 la ∧ la.head? = some a0 ∧ la.getLast? = some aL ∧
      (2 ≤ g.x → la.length = g.y) ∧
      g.lat_v = .a1 qv ∧ qv.length = g.y - 1 ∧
      (2 ≤ g.y → ∃ pv, g.lon_v = .a1 pv ∧ pv.length = g.x ∧
        mV = g.vRowLoop.map fun _ => pv) ∧
      (g.y < 2 → mV = []) ∧
      (2 ≤ g.x → m2 = la.map fun v => List.replicate (g.x - 1) v) ∧
      (g.x < 2 → m2 = List.replicate g.y []) ∧
      isRect (npT g.U) g.y (g.x - 1) = true ∧
      isRect (npT g.V) (g.y - 1) g.x = true ∧
      fU = { dims := [("x", some (g.x - 1)), ("y", some g.y),
                      ("depthu", some dp.length), ("time_counter", none)]
             vars := [
              ("nav_lon", { dims := ["y", "x"],
                            data := .d2 (g.uRowLoop.map fun _ => lu),
                            attrs := [("valid_min", u0), ("valid_max", uL)] }),
              ("nav_lat", { dims := ["y", "x"], data := .d2 m2,
                            attrs := [("valid_min", a0), ("valid_max", aL)] }),
              ("depthu", { dims := ["depthu"], data := .d1 dp }),
              ("time_counter", { dims := ["time_counter"], data := .d1 tc }),
              ("vozocrtx", { dims := ["time_counter", "depthu", "y", "x"],
                             data := .d4 [[npT g.U]] })] } ∧
      fV = { dims := [("x", some g.x), ("y", some (g.y - 1)),
                      ("depthv", some dp.length), ("time_counter", none)]
             vars := [
              ("nav_lon", { dims := ["y", "x"], data := .d2 mV,
                            attrs := [("valid_min", u0), ("valid_max", uL)] }),
              ("nav_lat", { dims := ["y", "x"],
                            data := .d2 (qv.map fun v => List.replicate g.x v),
                            attrs := [("valid_min", a0), ("valid_max", aL)] }),
              ("depthv", { dims := ["depthv"], data := .d1 dp }),
              ("time_counter", { dims := ["time_counter"], data := .d1 tc }),
              ("vomecrty", { dims := ["time_counter", "depthv", "y", "x"],
                             data := .d4 [[npT g.V]] })] } := by
  unfold NEMOGrid.write at h
  obtain ⟨dp, hdp⟩ : ∃ d, g.depth = some d := by
    cases hd : g.depth
    · simp only [hd] at h; simp at h
    · exact ⟨_, rfl⟩
  simp only [hdp] at h
  obtain ⟨tc, htc⟩ : ∃ t, g.time_counter = some t := by
    cases ht : g.time_counter
    · simp only [ht] at h; simp at h
    · exact ⟨_, rfl⟩
  simp only [htc] at h
  have hx1 : ¬ (g.x < 1) := by
    intro hx
    rw [if_pos hx] at h; simp at h
  rw [if_neg hx1] at h
  obtain ⟨m1, hm1⟩ : ∃ m, broadcastRows g.uRowLoop g.lon_u (g.x - 1) = .ok m := by
    cases hb : broadcastRows g.uRowLoop g.lon_u (g.x - 1)
    · simp only [hb] at h; simp at h
    · exact ⟨_, rfl⟩
  simp only [hm1] at h
  obtain ⟨u0, hu0⟩ : ∃ q, arrFirst g.lon_u = .ok q := by
    cases hb : arrFirst g.lon_u
    · simp only [hb] at h; simp at h
    · exact ⟨_, rfl⟩
  simp only [hu0] at h
  obtain ⟨uL, huL⟩ : ∃ q, arrLast g.lon_u = .ok q := by
    cases hb : arrLast g.lon_u
    · simp only [hb] at h; simp at h
    · exact ⟨_, rfl⟩
  simp only [huL] at h
  obtain ⟨m2, hm2⟩ : ∃ m, broadcastCols g.uColLoop g.lat_u g.y = .ok m := by
    cases hb : broadcastCols g.uColLoop g.lat_u g.y
    · simp only [hb] at h; simp at h
    · exact ⟨_, rfl⟩
  simp only [hm2] at h
  obtain ⟨a0, ha0⟩ : ∃ q, arrFirst g.lat_u = .ok q := by
    cases hb : arrFirst g.lat_u
    · simp only [hb] at h; simp at h
    · exact ⟨_, rfl⟩
  simp only [ha0] at h
  obtain ⟨aL, haL⟩ : ∃ q, arrLast g.lat_u = .ok q := by
    cases hb : arrLast g.lat_u
    · simp only [hb] at h; simp at h
    · exact ⟨_, rfl⟩
  simp only [haL] at h
  have hru : isRect (npT g.U) g.y (g.x - 1) = true := by
    by_cases hb : isRect (npT g.U) g.y (g.x - 1) = true
    · exact hb
    · rw [if_pos hb] at h; simp at h
  rw [if_neg (not_not_intro hru)] at h
  have hy1 : ¬ (g.y < 1) := by
    intro hy
    rw [if_pos hy] at h; simp at h
  rw [if_neg hy1] at h
  obtain ⟨mV, hmV⟩ : ∃ m, broadcastRows g.vRowLoop g.lon_v g.x = .ok m := by
    cases hb : broadcastRows g.vRowLoop g.lon_v g.x
    · simp only [hb] at h; simp at h
    · exact ⟨_, rfl⟩
  simp only [hmV] at h
  obtain ⟨m4, hm4⟩ : ∃ m, broadcastCols g.vColLoop g.lat_v (g.y - 1) = .ok m := by
    cases hb : broadcastCols g.vColLoop g.lat_v (g.y - 1)
    · simp only [hb] at h; simp at h
    · exact ⟨_, rfl⟩
  simp only [hm4] at h
  have hrv : isRect (npT g.V) (g.y - 1) g.x = true := by
    by_cases hb : isRect (npT g.V) (g.y - 1) g.x = true
    · exact hb
    · rw [if_pos hb] at h; simp at h
  rw [if_neg (not_not_intro hrv)] at h
  simp only [Except.ok.injEq, Prod.mk.injEq] at h
  -- extraction of the forced store facts
  have hyn : g.uRowLoop ≠ [] := by
    simp only [NEMOGrid.uRowLoop, ne_eq, List.range_eq_nil]
    omega
  rcases broadcastRows_ok hm1 with ⟨hnil, _⟩ | ⟨lu, hslu, hm1v⟩
  · exact absurd hnil hyn
  obtain ⟨hlonu, hlulen⟩ := setSlice1_ok_iff.mp hslu
  obtain ⟨lu', hlu', hhead⟩ := arrFirst_ok hu0
  rw [hlonu] at hlu'
  injection hlu' with he
  subst he
  obtain ⟨lu'', hlu'', hlast⟩ := arrLast_ok huL
  rw [hlonu] at hlu''
  injection hlu'' with he
  subst he
  obtain ⟨la, hlatu, hahead⟩ := arrFirst_ok ha0
  obtain ⟨la2, hla2, halast⟩ := arrLast_ok haL
  rw [hlatu] at hla2
  injection hla2 with he
  subst he
  have hlat_facts : (2 ≤ g.x → la.length = g.y) ∧
      (2 ≤ g.x → m2 = la.map fun v => List.replicate (g.x - 1) v) ∧
      (g.x < 2 → m2 = List.replicate g.y []) := by
    rcases broadcastCols_ok hm2 with ⟨hnil2, hm2v⟩ | ⟨la3, hsla, hm2v⟩
    · have hx0 : g.x - 1 = 0 := by
        simpa [NEMOGrid.uColLoop, List.range_eq_nil] using hnil2
      exact ⟨fun h2 => absurd hx0 (by omega), fun h2 => absurd hx0 (by omega),
        fun _ => hm2v⟩
    · obtain ⟨hlatu2, hlalen⟩ := setSlice1_ok_iff.mp hsla
      rw [hlatu] at hlatu2
      injection hlatu2 with he
      subst he
      refine ⟨fun _ => hlalen, fun _ => ?_, fun hxlt => ?_⟩
      · simpa [NEMOGrid.uColLoop] using hm2v
      · have hx0 : g.x - 1 = 0 := by omega
        rw [hm2v]
        simp only [NEMOGrid.uColLoop, List.length_range, hx0, List.replicate_zero]
        rw [List.map_const' la ([] : List ℚ), hlalen]
  have hlonv_facts : (2 ≤ g.y → ∃ pv, g.lon_v = .a1 pv ∧ pv.length = g.x ∧
      mV = g.vRowLoop.map fun _ => pv) ∧ (g.y < 2 → mV = []) := by
    rcases broadcastRows_ok hmV with ⟨hnil3, hmVv⟩ | ⟨pv, hspv, hmVv⟩
    · have hy0 : g.y - 1 = 0 := by
        simpa [NEMOGrid.vRowLoop, List.range_eq_nil] using hnil3
      exact ⟨fun h2 => absurd hy0 (by omega), fun _ => hmVv⟩
    · obtain ⟨hlonv, hpvlen⟩ := setSlice1_ok_iff.mp hspv
      refine ⟨fun _ => ⟨pv, hlonv, hpvlen, hmVv⟩, fun hylt => ?_⟩
      have hy0 : g.y - 1 = 0 := by omega
      rw [hmVv]
      simp [NEMOGrid.vRowLoop, hy0]
  have hxn : g.vColLoop ≠ [] := by
    simp only [NEMOGrid.vColLoop, ne_eq, List.range_eq_nil]
    omega
  rcases broadcastCols_ok hm4 with ⟨hnil4, _⟩ | ⟨qv, hsqv, hm4v⟩
  · exact absurd hnil4 hxn
  obtain ⟨hlatv, hqvlen⟩ := setSlice1_ok_iff.mp hsqv
  have hm4v' : m4 = qv.map fun v => List.replicate g.x v := by
    simpa [NEMOGrid.vColLoop] using hm4v
  refine ⟨dp, tc, lu, la, qv, u0, uL, a0, aL, m2, mV,
    hdp, htc, by omega, by omega, hlonu, hlulen, hhead, hlast,
    hlatu, hahead, halast, hlat_facts.1, hlatv, hqvlen,
    hlonv_facts.1, hlonv_facts.2, hlat_facts.2.1, hlat_facts.2.2,
    hru, hrv, ?_, ?_⟩
  · rw [← h.1, hm1v]
  · rw [← h.2, hm4v']

/-- C2: for every store successfully written by `write`, the U file
declares its `x` dimension with size exactly `store.x - 1` and its `y`
dimension with size `store.y`, and the V file declares its `y` dimension
with size exactly `store.y - 1` and its `x` dimension with size
`store.x`. -/
theorem C2_stagger_dims {g : NEMOGrid} {fU fV : NCFile}
    (h : g.write = .ok (fU, fV)) :
    fU.dimSize "x" = some (some (g.x - 1)) ∧ fU.dimSize "y" = some (some g.y) ∧
    fV.dimSize "y" = some (some (g.y - 1)) ∧ fV.dimSize "x" = some (some g.x) := by
  obtain ⟨dp, tc, lu, la, qv, u0, uL, a0, aL, m2, mV, -, -, -, -, -, -, -, -,
    -, -, -, -, -, -, -, -, -, -, -, -, hfU, hfV⟩ := write_ok_inv h
  subst hfU hfV
  simp [NCFile.dimSize, List.lookup]

/-- Witness for C2: the stagger invariant evaluated on the concrete store
`gdemo` and the file pair its write produces. -/
theorem C2_stagger_dims_witness :
    gdemo.write = .ok (fUdemo, fVdemo) ∧
    (fUdemo.dimSize "x" = some (some (gdemo.x - 1)) ∧
     fUdemo.dimSize "y" = some (some gdemo.y) ∧
     fVdemo.dimSize "y" = some (some (gdemo.y - 1)) ∧
     fVdemo.dimSize "x" = some (some gdemo.x)) := by
  have h : gdemo.write = .ok (fUdemo, fVdemo) := by rfl
  exact ⟨h, C2_stagger_dims h⟩

/-- C5: in every successfully written file pair, the V file's `nav_lon`
carries `valid_min`/`valid_max` equal to the first/last entries of the
U-stagger `lon_u` line, and its `nav_lat` carries the first/last entries
of the U-stagger `lat_u` line. -/
theorem C5_vfile_attrs_from_ustagger {g : NEMOGrid} {fU fV : NCFile}
    {lu la : Line} (h : g.write = .ok (fU, fV))
    (hlu : g.lon_u = .a1 lu) (hla : g.lat_u = .a1 la) :
    fV.varAttr "nav_lon" "valid_min" = lu.head? ∧
    fV.varAttr "nav_lon" "valid_max" = lu.getLast? ∧
    fV.varAttr "nav_lat" "valid_min" = la.head? ∧
    fV.varAttr "nav_lat" "valid_max" = la.getLast? := by
  obtain ⟨dp, tc, lu', la', qv, u0, uL, a0, aL, m2, mV, -, -, -, -, hlonu, -,
    hhead, hlast, hlatu, hahead, halast, -, -, -, -, -, -, -, -, -, -, hfV⟩ :=
    write_ok_inv h
  rw [hlu] at hlonu
  injection hlonu with he
  subst he
  rw [hla] at hlatu
  injection hlatu with he2
  subst he2
  subst hfV
  simp [NCFile.varAttr, List.lookup, hhead, hlast, hahead, halast]

/-- Witness for C5 at the concrete store `gdemo`. -/
theorem C5_vfile_attrs_witness :
    gdemo.write = .ok (fUdemo, fVdemo) ∧
    (fVdemo.varAttr "nav_lon" "valid_min" = [(0 : ℚ), 1].head? ∧
     fVdemo.varAttr "nav_lon" "valid_max" = [(0 : ℚ), 1].getLast? ∧
     fVdemo.varAttr "nav_lat" "valid_min" = [(0 : ℚ), 1, 2].head? ∧
     fVdemo.varAttr "nav_lat" "valid_max" = [(0 : ℚ), 1, 2].getLast?) := by
  have h : gdemo.write = .ok (fUdemo, fVdemo) := by rfl
  exact ⟨h, C5_vfile_attrs_from_ustagger h rfl rfl⟩

/-- C6: in the V write path, the loop over the latitude (row) index —
`for y in range(self.y-1)`, filling `nav_lon` — executes exactly `y - 1`
iterations, and the loop over the longitude (column) index —
`for x in range(self.x)`, filling `nav_lat` — executes one iteration per
column, i.e. exactly `x` iterations: in a successful write each of its
iterations sets one of the `x` columns of the V `nav_lat`. -/
theorem C6_vfile_loop_counts (g : NEMOGrid) :
    (g.vRowLoop).length = g.y - 1 ∧ (g.vColLoop).length = g.x ∧
    (∀ fU fV, g.write = .ok (fU, fV) →
      ∀ row ∈ fV.navRows "nav_lat", row.length = (g.vColLoop).length) := by
  refine ⟨by simp [NEMOGrid.vRowLoop], by simp [NEMOGrid.vColLoop], ?_⟩
  intro fU fV h row hrow
  obtain ⟨dp, tc, lu, la, qv, u0, uL, a0, aL, m2, mV, -, -, -, -, -, -, -, -,
    -, -, -, -, -, -, -, -, -, -, -, -, -, hfV⟩ := write_ok_inv h
  subst hfV
  simp only [NCFile.navRows, List.lookup] at hrow
  rcases List.mem_map.mp (by simpa using hrow) with ⟨v, -, hv⟩
  subst hv
  simp [NEMOGrid.vColLoop]

/-- Witness for C6: the loop counts at the concrete store `gdemo`, and the
column count of one concrete row of its written V `nav_lat`. -/
theorem C6_vfile_loop_counts_witness :
    (gdemo.vRowLoop).length = gdemo.y - 1 ∧
    (gdemo.vColLoop).length = gdemo.x ∧
    [(0 : ℚ), 0, 0].length = (gdemo.vColLoop).length := by
  refine ⟨(C6_vfile_loop_counts gdemo).1, (C6_vfile_loop_counts gdemo).2.1, ?_⟩
  exact (C6_vfile_loop_counts gdemo).2.2 fUdemo fVdemo (by rfl) [0, 0, 0]
    (by decide)

/-- C8 (behavior of the code at the failing input): `_particles` is a
single class-level list shared by every instance.  From the class state
created at class-definition time, a fresh instance sees the empty
collection; after `add_particle 7` through one fresh instance, a second,
untouched fresh instance sees `[7]` — not its own fresh empty
collection. -/
theorem C8_particles_shared :
    NEMOObj.new.particles { particlesAttr := [] } = [] ∧
    (NEMOObj.new.add_particle { particlesAttr := [] } 7).2 =
      { particlesAttr := [7] } ∧
    NEMOObj.new.particles { particlesAttr := [7] } = [7] ∧
    NEMOObj.new.particles { particlesAttr := [7] } ≠ [] :=
  ⟨rfl, rfl, rfl, by decide⟩

/-- C9: `write` only reads the store.  In the state-passing embedding of
the method the receiver comes back with every field equal to its value
before the call, the class-level particle state is unchanged, and the
first component is exactly the produced file pair. -/
theorem C9_write_frame (g : NEMOGrid) (s : NEMOClassState) :
    (g.writeM s).2.1.x = g.x ∧ (g.writeM s).2.1.y = g.y ∧
    (g.writeM s).2.1.depth = g.depth ∧
    (g.writeM s).2.1.time_counter = g.time_counter ∧
    (g.writeM s).2.1.lon_u = g.lon_u ∧ (g.writeM s).2.1.lat_u = g.lat_u ∧
    (g.writeM s).2.1.lon_v = g.lon_v ∧ (g.writeM s).2.1.lat_v = g.lat_v ∧
    (g.writeM s).2.1.U = g.U ∧ (g.writeM s).2.1.V = g.V ∧
    (g.writeM s).2.2 = s ∧ (g.writeM s).1 = g.write :=
  ⟨rfl, rfl, rfl, rfl, rfl, rfl, rfl, rfl, rfl, rfl, rfl, rfl⟩

/-- C10 counterexample: with `y = 1` the V `nav_lon` row loop
`for y in range(self.y-1)` runs zero times, so `lon_v` is never read —
`cex10.write` produces a file pair although `cex10.lon_v` is a rank-2
array (so not a 1-D line of length `x`), refuting the claim that the write
path is well-formed only when each of the four coordinate arrays is a 1-D
line of matching length. -/
theorem C10_shape_cex :
    (cex10.write).isOk = true ∧ cex10.lon_v = .a2 [[5]] ∧
    cex10.x = 3 ∧ cex10.y = 1 :=
  ⟨by decide, rfl, rfl, rfl⟩

/-- C10 (amended): a successful `write` forces exactly the coordinate
lines it reads to be rank-1 of matching length — `lon_u` of length
`x - 1`, `lat_u` of length `y` whenever its column loop runs (`x ≥ 2`),
`lat_v` of length `y - 1`, and `lon_v` of length `x` whenever its row loop
runs (`y ≥ 2`) — and with all four lattices rank-2 `y × x` arrays, as the
data model describes them, `write` fails with an error rather than
producing a file pair. -/
theorem C10_write_shape_requirements (g : NEMOGrid) :
    (∀ fU fV, g.write = .ok (fU, fV) →
      (∃ lu, g.lon_u = .a1 lu ∧ lu.length = g.x - 1) ∧
      (∃ la, g.lat_u = .a1 la ∧ (2 ≤ g.x → la.length = g.y)) ∧
      (∃ qv, g.lat_v = .a1 qv ∧ qv.length = g.y - 1) ∧
      (2 ≤ g.y → ∃ pv, g.lon_v = .a1 pv ∧ pv.length = g.x)) ∧
    ((∃ w1 w2 w3 w4, g.lon_u = .a2 w1 ∧ g.lat_u = .a2 w2 ∧
        g.lon_v = .a2 w3 ∧ g.lat_v = .a2 w4) →
      (g.write).isOk = false) := by
  constructor
  · intro fU fV h
    obtain ⟨dp, tc, lu, la, qv, u0, uL, a0, aL, m2, mV, -, -, -, -, hlonu,
      hlulen, -, -, hlatu, -, -, hlaxy, hlatv, hqvlen, hlonv, -, -, -, -, -,
      -, -⟩ := write_ok_inv h
    exact ⟨⟨lu, hlonu, hlulen⟩, ⟨la, hlatu, hlaxy⟩, ⟨qv, hlatv, hqvlen⟩,
      fun h2 => (hlonv h2).imp fun pv hpv => ⟨hpv.1, hpv.2.1⟩⟩
  · rintro ⟨w1, w2, w3, w4, hw1, -, -, -⟩
    cases hw : g.write with
    | error e => rfl
    | ok p =>
      obtain ⟨fU, fV⟩ := p
      obtain ⟨dp, tc, lu, la, qv, u0, uL, a0, aL, m2, mV, -, -, -, -, hlonu,
        -, -, -, -, -, -, -, -, -, -, -, -, -, -, -, -, -⟩ := write_ok_inv hw
      rw [hw1] at hlonu
      simp at hlonu

/-- Witness for C10: the shape consequences of the successful write at
`gdemo`, and the failure of `write` at `gall2`, whose lattices are all
rank-2. -/
theorem C10_write_shape_requirements_witness :
    ((∃ lu, gdemo.lon_u = .a1 lu ∧ lu.length = gdemo.x - 1) ∧
     (∃ la, gdemo.lat_u = .a1 la ∧ (2 ≤ gdemo.x → la.length = gdemo.y)) ∧
     (∃ qv, gdemo.lat_v = .a1 qv ∧ qv.length = gdemo.y - 1) ∧
     (2 ≤ gdemo.y → ∃ pv, gdemo.lon_v = .a1 pv ∧ pv.length = gdemo.x)) ∧
    (gall2.write).isOk = false := by
  refine ⟨(C10_write_shape_requirements gdemo).1 fUdemo fVdemo (by rfl), ?_⟩
  exact (C10_write_shape_requirements gall2).2
    ⟨[[0, 1], [0, 1], [0, 1]], [[0, 0], [1, 1], [2, 2]],
     [[0, 1, 2], [0, 1, 2]], [[0, 0, 0], [1, 1, 1]], rfl, rfl, rfl, rfl⟩

/-- C7: constructing from a base path fails with the missing-file error
when either sibling file is absent; with both files present, it fails with
the missing-variable error when a required variable name is absent — for
`vomecrty` under the proviso that the U velocity variable, which is sliced
first, has a readable `[0, 0]` slice (otherwise that slice's own
IndexError fires before `vomecrty` is ever looked up; in Python both
surface as `IndexError`). -/
theorem C7_construct_errors (fs : List (String × NCFile)) (name : String) :
    ((fs.lookup (name ++ "_U") = none ∨ fs.lookup (name ++ "_V") = none) →
      NEMOGrid.ofPath fs name = .error .missingFile) ∧
    (∀ fU fV, fs.lookup (name ++ "_U") = some fU →
      fs.lookup (name ++ "_V") = some fV →
      ((fU.vars.lookup "nav_lon" = none ∨ fU.vars.lookup "nav_lat" = none ∨
        fV.vars.lookup "nav_lon" = none ∨ fV.vars.lookup "nav_lat" = none ∨
        fU.vars.lookup "vozocrtx" = none) →
        NEMOGrid.ofPath fs name = .error .missingVariable) ∧
      (∀ uv um, fU.vars.lookup "vozocrtx" = some uv →
        slice00 uv.data = .ok um → fV.vars.lookup "vomecrty" = none →
        NEMOGrid.ofPath fs name = .error .missingVariable)) := by
  constructor
  · intro hor
    cases hU : fs.lookup (name ++ "_U") with
    | none => simp [NEMOGrid.ofPath, hU]
    | some fU =>
      rcases hor with h1 | h2
      · rw [hU] at h1; cases h1
      · simp [NEMOGrid.ofPath, hU, h2]
  · intro fU fV hU hV
    constructor
    · intro hor
      unfold NEMOGrid.ofPath
      simp only [hU, hV]
      rcases hor with h1 | h2 | h3 | h4 | h5
      · simp [getVar, h1]
      · cases hl1 : fU.vars.lookup "nav_lon" with
        | none => simp [getVar, hl1]
        | some v1 => simp [getVar, hl1, h2]
      · cases hl1 : fU.vars.lookup "nav_lon" with
        | none => simp [getVar, hl1]
        | some v1 =>
          cases hl2 : fU.vars.lookup "nav_lat" with
          | none => simp [getVar, hl1, hl2]
          | some v2 => simp [getVar, hl1, hl2, h3]
      · cases hl1 : fU.vars.lookup "nav_lon" with
        | none => simp [getVar, hl1]
        | some v1 =>
          cases hl2 : fU.vars.lookup "nav_lat" with
          | none => simp [getVar, hl1, hl2]
          | some v2 =>
            cases hl3 : fV.vars.lookup "nav_lon" with
            | none => simp [getVar, hl1, hl2, hl3]
            | some v3 => simp [getVar, hl1, hl2, hl3, h4]
      · cases hl1 : fU.vars.lookup "nav_lon" with
        | none => simp [getVar, hl1]
        | some v1 =>
          cases hl2 : fU.vars.lookup "nav_lat" with
          | none => simp [getVar, hl1, hl2]
          | some v2 =>
            cases hl3 : fV.vars.lookup "nav_lon" with
            | none => simp [getVar, hl1, hl2, hl3]
            | some v3 =>
              cases hl4 : fV.vars.lookup "nav_lat" with
              | none => simp [getVar, hl1, hl2, hl3, hl4]
              | some v4 => simp [getVar, hl1, hl2, hl3, hl4, h5]
    · intro uv um huv hsl hvm
      unfold NEMOGrid.ofPath
      simp only [hU, hV]
      cases hl1 : fU.vars.lookup "nav_lon" with
      | none => simp [getVar, hl1]
      | some v1 =>
        cases hl2 : fU.vars.lookup "nav_lat" with
        | none => simp [getVar, hl1, hl2]
        | some v2 =>
          cases hl3 : fV.vars.lookup "nav_lon" with
          | none => simp [getVar, hl1, hl2, hl3]
          | some v3 =>
            cases hl4 : fV.vars.lookup "nav_lat" with
            | none => simp [getVar, hl1, hl2, hl3, hl4]
            | some v4 => simp [getVar, hl1, hl2, hl3, hl4, huv, hsl, hvm]

/-- Witness for C7: an empty filesystem (missing file); a pair of empty
datasets (missing `nav_lon`); and a pair of U-style datasets so that every
variable access before `vomecrty` succeeds but `vomecrty` is absent. -/
theorem C7_construct_errors_witness :
    NEMOGrid.ofPath [] "grid" = .error .missingFile ∧
    NEMOGrid.ofPath
      [("grid_U", (⟨[], []⟩ : NCFile)), ("grid_V", (⟨[], []⟩ : NCFile))]
      "grid" = .error .missingVariable ∧
    NEMOGrid.ofPath [("grid_U", fUdemo), ("grid_V", fUdemo)] "grid" =
      .error .missingVariable := by
  refine ⟨(C7_construct_errors [] "grid").1 (Or.inl rfl), ?_, ?_⟩
  · exact ((C7_construct_errors
      [("grid_U", (⟨[], []⟩ : NCFile)), ("grid_V", (⟨[], []⟩ : NCFile))]
      "grid").2 ⟨[], []⟩ ⟨[], []⟩ (by rfl) (by rfl)).1 (Or.inl rfl)
  · exact ((C7_construct_errors [("grid_U", fUdemo), ("grid_V", fUdemo)]
      "grid").2 fUdemo fUdemo (by rfl) (by rfl)).2
      { dims := ["time_counter", "depthu", "y", "x"],
        data := .d4 [[[[some 1, some 4], [some 2, some 5], [some 3, some 6]]]] }
      [[some 1, some 4], [some 2, some 5], [some 3, some 6]]
      (by rfl) (by rfl) (by rfl)

/-- C3: an interpolator built over a lattice from a field possibly
containing NaN entries, when sampled exactly at lattice node `(i, j)`,
returns the sanitized field value at that node — `0` (not NaN) wherever
the original entry was NaN, and the original value everywhere else. -/
theorem C3_interp_node_sanitized {lat lon : NCData} {f : OMat} {s : Spline}
    (h : buildInterp lat lon f = .ok s) (i j : Nat)
    (hi : i < s.xs.length) (hj : j < s.ys.length) :
    ((f.getD i []).getD j none = none →
      s.ev (s.xs.get ⟨i, hi⟩) (s.ys.get ⟨j, hj⟩) = 0) ∧
    (∀ q, (f.getD i []).getD j none = some q →
      s.ev (s.xs.get ⟨i, hi⟩) (s.ys.get ⟨j, hj⟩) = q) := by
  unfold buildInterp at h
  obtain ⟨xs, hxs⟩ : ∃ l, col0 lat = .ok l := by
    cases hb : col0 lat
    · simp only [hb] at h; simp at h
    · exact ⟨_, rfl⟩
  simp only [hxs] at h
  obtain ⟨ys, hys⟩ : ∃ l, row0 lon = .ok l := by
    cases hb : row0 lon
    · simp only [hb] at h; simp at h
    · exact ⟨_, rfl⟩
  simp only [hys] at h
  obtain ⟨hs, hcx, hcy, hlx, hly, hrect⟩ := mkSpline_ok h
  subst hs
  have hi' : i < xs.length := hi
  have hj' : j < ys.length := hj
  have hev := Spline.ev_node ⟨xs, ys, sanitize f⟩ i j hi hj hcx hcy
  simp only [isRect, Bool.and_eq_true, beq_iff_eq, List.all_eq_true] at hrect
  have hslen : (sanitize f).length = f.length := by simp [sanitize]
  have hsi : i < (sanitize f).length := by
    rw [hrect.1]; exact hi'
  have hif : i < f.length := by omega
  have hrow : (sanitize f).getD i [] = List.map sanv (f.getD i []) := by
    rw [List.getD_eq_getElem _ _ hsi, List.getD_eq_getElem _ _ hif]
    simp [sanitize]
  have hjf : j < (f.getD i []).length := by
    have hmem : (sanitize f).getD i [] ∈ sanitize f := by
      rw [List.getD_eq_getElem _ _ hsi]
      exact List.getElem_mem hsi
    have hlenrow := hrect.2 _ hmem
    rw [hrow] at hlenrow
    simp only [List.length_map] at hlenrow
    omega
  have hentry : ((sanitize f).getD i []).getD j 0
      = sanv ((f.getD i []).getD j none) := by
    rw [hrow]
    rw [List.getD_eq_getElem _ _ (by simpa using hjf),
      List.getD_eq_getElem _ _ hjf]
    simp
  constructor
  · intro hnan
    rw [hev, hentry, hnan]
    rfl
  · intro q hq
    rw [hev, hentry, hq]
    rfl

/-- Witness for C3: a 2 × 2 field with a NaN at node `(0, 0)`; the fitted
interpolator returns `0` there and the original value `4` at node
`(1, 1)`. -/
theorem C3_interp_node_witness :
    buildInterp (.d2 [[0], [1]]) (.d2 [[0, 1]])
      [[none, some 2], [some 3, some 4]]
      = .ok ⟨[0, 1], [0, 1], [[0, 2], [3, 4]]⟩ ∧
    Spline.ev ⟨[0, 1], [0, 1], [[0, 2], [3, 4]]⟩ 0 0 = 0 ∧
    Spline.ev ⟨[0, 1], [0, 1], [[0, 2], [3, 4]]⟩ 1 1 = 4 := by
  have h : buildInterp (.d2 [[0], [1]]) (.d2 [[0, 1]])
      [[none, some 2], [some 3, some 4]]
      = .ok ⟨[0, 1], [0, 1], [[0, 2], [3, 4]]⟩ := by rfl
  refine ⟨h, ?_, ?_⟩
  · have := (C3_interp_node_sanitized h 0 0 (by decide) (by decide)).1 rfl
    simpa using this
  · have := (C3_interp_node_sanitized h 1 1 (by decide) (by decide)).2 4 rfl
    simpa using this

theorem append_ne_UV (n : String) : ¬ (n ++ "_U" = n ++ "_V") := by
  intro h
  have hd := congrArg String.data h
  simp only [String.data_append] at hd
  have h2 := List.append_cancel_left hd
  simp_all

/-- C1 counterexample: writing the concrete store `gdemo` and then
constructing a new grid from the written path succeeds, but the new
instance carries `depth = none` and `time_counter = none` although the
written store carried `some [0]` for both, and its velocity field is the
transpose of the written one ( `[[1,4],[2,5],[3,6]]`, not
`[[1,2,3],[4,5,6]]` ) — so depth, time and the velocity fields are not
reproduced. -/
theorem C1_roundtrip_cex :
    (match NEMOGrid.writeTo [] "grid" gdemo with
      | .ok fs => NEMOGrid.ofPath fs "grid"
      | .error e => .error e).map
        (fun inst : NEMOGridInst => (inst.depth, inst.time_counter, inst.U))
      = .ok (none, none, [[1, 4], [2, 5], [3, 6]]) ∧
    gdemo.depth = some [0] ∧ gdemo.time_counter = some [0] ∧
    gdemo.U.map (fun r => r.map sanv) = [[1, 2, 3], [4, 5, 6]] ∧
    ([[1, 4], [2, 5], [3, 6]] : Mat) ≠ [[1, 2, 3], [4, 5, 6]] :=
  ⟨by rfl, rfl, rfl, by rfl, by decide⟩

/-- C1 (amended): for every synthetic store with rank-1, strictly
increasing coordinate lines of the expected matching lengths (each with at
least the two points the spline fit needs), with depth and time lines
present and velocity fields fitting their slots, writing to a path and
constructing a new grid from that path succeeds, and the construction
reproduces the coordinate lines exactly — every row of each read
`nav_lon` equals the written lon line, every column of each read `nav_lat`
equals the written lat line — while the velocity fields come back as the
(sanitized) transposes of the written ones, and `depth` and `time_counter`
are not restored: they remain absent on the new instance. -/
theorem C1_roundtrip_amended (g : NEMOGrid) (name : String)
    (lu la pv qv dp tc : Line)
    (hlu : g.lon_u = .a1 lu) (hlulen : lu.length = g.x - 1)
    (hluc : chainLt lu = true) (hlu2 : 2 ≤ lu.length)
    (hla : g.lat_u = .a1 la) (hlalen : la.length = g.y)
    (hlac : chainLt la = true) (hla2 : 2 ≤ la.length)
    (hpv : g.lon_v = .a1 pv) (hpvlen : pv.length = g.x)
    (hpvc : chainLt pv = true) (hpv2 : 2 ≤ pv.length)
    (hqv : g.lat_v = .a1 qv) (hqvlen : qv.length = g.y - 1)
    (hqvc : chainLt qv = true) (hqv2 : 2 ≤ qv.length)
    (hdp : g.depth = some dp) (htc : g.time_counter = some tc)
    (hU : isRect (npT g.U) g.y (g.x - 1) = true)
    (hV : isRect (npT g.V) (g.y - 1) g.x = true) :
    ∃ (fs : List (String × NCFile)) (inst : NEMOGridInst),
      NEMOGrid.writeTo [] name g = .ok fs ∧
      NEMOGrid.ofPath fs name = .ok inst ∧
      inst.lon_u.data = .d2 (List.replicate g.y lu) ∧
      (∀ row ∈ List.replicate g.y lu, row = lu) ∧
      inst.lat_u.data = .d2 (la.map fun v => List.replicate (g.x - 1) v) ∧
      (∀ j, j < g.x - 1 →
        colOf (la.map fun v => List.replicate (g.x - 1) v) j = la) ∧
      inst.lon_v.data = .d2 (List.replicate (g.y - 1) pv) ∧
      (∀ row ∈ List.replicate (g.y - 1) pv, row = pv) ∧
      inst.lat_v.data = .d2 (qv.map fun v => List.replicate g.x v) ∧
      (∀ j, j < g.x → colOf (qv.map fun v => List.replicate g.x v) j = qv) ∧
      inst.U = sanitize (npT g.U) ∧ inst.V = sanitize (npT g.V) ∧
      inst.depth = none ∧ inst.time_counter = none := by
  have hx3 : 3 ≤ g.x := by omega
  have hy2 : 2 ≤ g.y := by omega
  have hy3 : 3 ≤ g.y := by omega
  -- the scalar attribute values read off the two U-stagger lines
  rcases lu with - | ⟨u0, lu1⟩
  · simp at hlu2
  obtain ⟨uL, huL⟩ : ∃ z, (u0 :: lu1).getLast? = some z := by
    have hsome : (u0 :: lu1).getLast?.isSome = true :=
      List.getLast?_isSome.mpr (by simp)
    exact Option.isSome_iff_exists.mp hsome
  rcases la with - | ⟨a0, la1⟩
  · simp at hla2
  obtain ⟨aL, haL⟩ : ∃ z, (a0 :: la1).getLast? = some z := by
    have hsome : (a0 :: la1).getLast?.isSome = true :=
      List.getLast?_isSome.mpr (by simp)
    exact Option.isSome_iff_exists.mp hsome
  -- step results of the write path
  have hset_lu : setSlice1 g.lon_u (g.x - 1) = .ok (u0 :: lu1) := by
    rw [hlu]; simp [setSlice1, hlulen]
  have hset_la : setSlice1 g.lat_u g.y = .ok (a0 :: la1) := by
    rw [hla]; simp [setSlice1, hlalen]
  have hset_pv : setSlice1 g.lon_v g.x = .ok pv := by
    rw [hpv]; simp [setSlice1, hpvlen]
  have hset_qv : setSlice1 g.lat_v (g.y - 1) = .ok qv := by
    rw [hqv]; simp [setSlice1, hqvlen]
  have hbrU : broadcastRows g.uRowLoop g.lon_u (g.x - 1)
      = .ok (List.replicate g.y (u0 :: lu1)) := by
    rw [broadcastRows_const hset_lu]
    simp [NEMOGrid.uRowLoop, List.map_const']
  have hbcU : broadcastCols g.uColLoop g.lat_u g.y
      = .ok ((a0 :: la1).map fun v => List.replicate (g.x - 1) v) := by
    have := broadcastCols_const hset_la g.uColLoop
    simpa [NEMOGrid.uColLoop] using this
  have hbrV : broadcastRows g.vRowLoop g.lon_v g.x
      = .ok (List.replicate (g.y - 1) pv) := by
    rw [broadcastRows_const hset_pv]
    simp [NEMOGrid.vRowLoop, List.map_const']
  have hbcV : broadcastCols g.vColLoop g.lat_v (g.y - 1)
      = .ok (qv.map fun v => List.replicate g.x v) := by
    have := broadcastCols_const hset_qv g.vColLoop
    simpa [NEMOGrid.vColLoop] using this
  have harF_lu : arrFirst g.lon_u = .ok u0 := by
    rw [hlu]; rfl
  have harL_lu : arrLast g.lon_u = .ok uL := by
    rw [hlu]; simp [arrLast, huL]
  have harF_la : arrFirst g.lat_u = .ok a0 := by
    rw [hla]; rfl
  have harL_la : arrLast g.lat_u = .ok aL := by
    rw [hla]; simp [arrLast, haL]
  have hw : g.write = .ok
      ({ dims := [("x", some (g.x - 1)), ("y", some g.y),
                  ("depthu", some dp.length), ("time_counter", none)]
         vars := [
          ("nav_lon", { dims := ["y", "x"],
                        data := .d2 (List.replicate g.y (u0 :: lu1)),
                        attrs := [("valid_min", u0), ("valid_max", uL)] }),
          ("nav_lat", { dims := ["y", "x"],
                        data := .d2 ((a0 :: la1).map fun v =>
                          List.replicate (g.x - 1) v),
                        attrs := [("valid_min", a0), ("valid_max", aL)] }),
          ("depthu", { dims := ["depthu"], data := .d1 dp }),
          ("time_counter", { dims := ["time_counter"], data := .d1 tc }),
          ("vozocrtx", { dims := ["time_counter", "depthu", "y", "x"],
                         data := .d4 [[npT g.U]] })] },
       { dims := [("x", some g.x), ("y", some (g.y - 1)),
                  ("depthv", some dp.length), ("time_counter", none)]
         vars := [
          ("nav_lon", { dims := ["y", "x"],
                        data := .d2 (List.replicate (g.y - 1) pv),
                        attrs := [("valid_min", u0), ("valid_max", uL)] }),
          ("nav_lat", { dims := ["y", "x"],
                        data := .d2 (qv.map fun v => List.replicate g.x v),
                        attrs := [("valid_min", a0), ("valid_max", aL)] }),
          ("depthv", { dims := ["depthv"], data := .d1 dp }),
          ("time_counter", { dims := ["time_counter"], data := .d1 tc }),
          ("vomecrty", { dims := ["time_counter", "depthv", "y", "x"],
                         data := .d4 [[npT g.V]] })] }) := by
    unfold NEMOGrid.write
    simp only [hdp, htc]
    rw [if_neg (show ¬ g.x < 1 by omega)]
    simp only [hbrU, harF_lu, harL_lu, hbcU, harF_la, harL_la]
    rw [if_neg (not_not_intro hU)]
    rw [if_neg (show ¬ g.y < 1 by omega)]
    simp only [hbrV, hbcV]
    rw [if_neg (not_not_intro hV)]
  -- the read path on the two written files
  have hUVne : ((name ++ "_U") == (name ++ "_V")) = false := by
    rw [beq_eq_false_iff_ne]
    exact append_ne_UV name
  have hcol0U : col0 (.d2 (List.replicate (g.x - 1) a0 ::
        la1.map fun v => List.replicate (g.x - 1) v))
      = .ok (a0 :: la1) := by
    show col0 (.d2 ((a0 :: la1).map fun v => List.replicate (g.x - 1) v))
      = .ok (a0 :: la1)
    simp only [col0]
    rw [if_pos]
    · congr 1
      rw [List.map_map]
      have : ∀ v ∈ (a0 :: la1),
          ((List.replicate (g.x - 1) v).getD 0 0) = v := fun v _ =>
        getD_replicate_of_lt (by omega) v 0
      calc ((a0 :: la1).map fun v =>
              ((List.replicate (g.x - 1) v).getD 0 0))
          = (a0 :: la1).map id := List.map_congr_left fun v hv => this v hv
        _ = a0 :: la1 := List.map_id _
    · simp only [List.all_eq_true]
      intro r hr
      rcases List.mem_map.mp hr with ⟨v, -, hv⟩
      subst hv
      simp
      omega
  have hrow0U : row0 (.d2 (List.replicate g.y (u0 :: lu1)))
      = .ok (u0 :: lu1) := by
    simp only [row0]
    rw [head?_replicate_of_pos (by omega)]
  have hmkU : mkSpline (a0 :: la1) (u0 :: lu1) (sanitize (npT g.U))
      = .ok ⟨a0 :: la1, u0 :: lu1, sanitize (npT g.U)⟩ := by
    unfold mkSpline
    rw [if_pos]
    simp only [Bool.and_eq_true, decide_eq_true_eq]
    refine ⟨⟨⟨⟨hlac, hluc⟩, hla2⟩, hlu2⟩, ?_⟩
    rw [hlalen, hlulen]
    exact isRect_sanitize hU
  have hcol0V : col0 (.d2 (qv.map fun v => List.replicate g.x v))
      = .ok qv := by
    simp only [col0]
    rw [if_pos]
    · congr 1
      rw [List.map_map]
      have : ∀ v ∈ qv, ((List.replicate g.x v).getD 0 0) = v := fun v _ =>
        getD_replicate_of_lt (by omega) v 0
      calc (qv.map fun v => ((List.replicate g.x v).getD 0 0))
          = qv.map id := List.map_congr_left fun v hv => this v hv
        _ = qv := List.map_id _
    · simp only [List.all_eq_true]
      intro r hr
      rcases List.mem_map.mp hr with ⟨v, -, hv⟩
      subst hv
      simp
      omega
  have hrow0V : row0 (.d2 (List.replicate (g.y - 1) pv)) = .ok pv := by
    simp only [row0]
    rw [head?_replicate_of_pos (by omega)]
  have hmkV : mkSpline qv pv (sanitize (npT g.V))
      = .ok ⟨qv, pv, sanitize (npT g.V)⟩ := by
    unfold mkSpline
    rw [if_pos]
    simp only [Bool.and_eq_true, decide_eq_true_eq]
    refine ⟨⟨⟨⟨hqvc, hpvc⟩, hqv2⟩, hpv2⟩, ?_⟩
    rw [hqvlen, hpvlen]
    exact isRect_sanitize hV
  refine ⟨[(name ++ "_V",
      { dims := [("x", some g.x), ("y", some (g.y - 1)),
                 ("depthv", some dp.length), ("time_counter", none)]
        vars := [
         ("nav_lon", { dims := ["y", "x"],
                       data := .d2 (List.replicate (g.y - 1) pv),
                       attrs := [("valid_min", u0), ("valid_max", uL)] }),
         ("nav_lat", { dims := ["y", "x"],
                       data := .d2 (qv.map fun v => List.replicate g.x v),
                       attrs := [("valid_min", a0), ("valid_max", aL)] }),
         ("depthv", { dims := ["depthv"], data := .d1 dp }),
         ("time_counter", { dims := ["time_counter"], data := .d1 tc }),
         ("vomecrty", { dims := ["time_counter", "depthv", "y", "x"],
                        data := .d4 [[npT g.V]] })] }),
     (name ++ "_U",
      { dims := [("x", some (g.x - 1)), ("y", some g.y),
                 ("depthu", some dp.length), ("time_counter", none)]
        vars := [
         ("nav_lon", { dims := ["y", "x"],
                       data := .d2 (List.replicate g.y (u0 :: lu1)),
                       attrs := [("valid_min", u0), ("valid_max", uL)] }),
         ("nav_lat", { dims := ["y", "x"],
                       data := .d2 ((a0 :: la1).map fun v =>
                         List.replicate (g.x - 1) v),
                       attrs := [("valid_min", a0), ("valid_max", aL)] }),
         ("depthu", { dims := ["depthu"], data := .d1 dp }),
         ("time_counter", { dims := ["time_counter"], data := .d1 tc }),
         ("vozocrtx", { dims := ["time_counter", "depthu", "y", "x"],
                        data := .d4 [[npT g.U]] })] })],
    { lon_u := { dims := ["y", "x"],
                 data := .d2 (List.replicate g.y (u0 :: lu1)),
                 attrs := [("valid_min", u0), ("valid_max", uL)] },
      lat_u := { dims := ["y", "x"],
                 data := .d2 ((a0 :: la1).map fun v =>
                   List.replicate (g.x - 1) v),
                 attrs := [("valid_min", a0), ("valid_max", aL)] },
      lon_v := { dims := ["y", "x"],
                 data := .d2 (List.replicate (g.y - 1) pv),
                 attrs := [("valid_min", u0), ("valid_max", uL)] },
      lat_v := { dims := ["y", "x"],
                 data := .d2 (qv.map fun v => List.replicate g.x v),
                 attrs := [("valid_min", a0), ("valid_max", aL)] },
      U := sanitize (npT g.U), V := sanitize (npT g.V),
      interp_u := ⟨a0 :: la1, u0 :: lu1, sanitize (npT g.U)⟩,
      interp_v := ⟨qv, pv, sanitize (npT g.V)⟩ },
    ?_, ?_, rfl, ?_, rfl, ?_, rfl, ?_, rfl, ?_, rfl, rfl, rfl, rfl⟩
  · unfold NEMOGrid.writeTo
    rw [hw]
  · unfold NEMOGrid.ofPath
    simp [List.lookup, hUVne, getVar, slice00, hcol0U, hrow0U, hmkU, hcol0V,
      hrow0V, hmkV]
  · exact fun row hr => List.eq_of_mem_replicate hr
  · intro j hj
    unfold colOf
    rw [List.map_map]
    calc ((a0 :: la1).map fun v => ((List.replicate (g.x - 1) v).getD j 0))
        = (a0 :: la1).map id :=
          List.map_congr_left fun v hv => getD_replicate_of_lt hj v 0
      _ = a0 :: la1 := List.map_id _
  · exact fun row hr => List.eq_of_mem_replicate hr
  · intro j hj
    unfold colOf
    rw [List.map_map]
    calc (qv.map fun v => ((List.replicate g.x v).getD j 0))
        = qv.map id :=
          List.map_congr_left fun v hv => getD_replicate_of_lt hj v 0
      _ = qv := List.map_id _

/-- Witness for the amended C1 at the concrete store `gdemo`. -/
theorem C1_roundtrip_amended_witness :
    ∃ (fs : List (String × NCFile)) (inst : NEMOGridInst),
      NEMOGrid.writeTo [] "grid" gdemo = .ok fs ∧
      NEMOGrid.ofPath fs "grid" = .ok inst ∧
      inst.lon_u.data = .d2 (List.replicate gdemo.y [0, 1]) ∧
      (∀ row ∈ List.replicate gdemo.y [(0 : ℚ), 1], row = [0, 1]) ∧
      inst.lat_u.data
        = .d2 ([(0 : ℚ), 1, 2].map fun v => List.replicate (gdemo.x - 1) v) ∧
      (∀ j, j < gdemo.x - 1 →
        colOf ([(0 : ℚ), 1, 2].map fun v => List.replicate (gdemo.x - 1) v) j
          = [0, 1, 2]) ∧
      inst.lon_v.data = .d2 (List.replicate (gdemo.y - 1) [0, 1, 2]) ∧
      (∀ row ∈ List.replicate (gdemo.y - 1) [(0 : ℚ), 1, 2],
        row = [0, 1, 2]) ∧
      inst.lat_v.data
        = .d2 ([(0 : ℚ), 1].map fun v => List.replicate gdemo.x v) ∧
      (∀ j, j < gdemo.x →
        colOf ([(0 : ℚ), 1].map fun v => List.replicate gdemo.x v) j
          = [0, 1]) ∧
      inst.U = sanitize (npT gdemo.U) ∧ inst.V = sanitize (npT gdemo.V) ∧
      inst.depth = none ∧ inst.time_counter = none :=
  C1_roundtrip_amended gdemo "grid" [0, 1] [0, 1, 2] [0, 1, 2] [0, 1] [0] [0]
    rfl (by decide) (by decide) (by decide)
    rfl (by decide) (by decide) (by decide)
    rfl (by decide) (by decide) (by decide)
    rfl (by decide) (by decide) (by decide)
    rfl rfl (by decide) (by decide)

theorem colOf_map_replicate {l : Line} {n j : Nat} (hj : j < n) :
    colOf (l.map fun v => List.replicate n v) j = l := by
  unfold colOf
  rw [List.map_map]
  calc (l.map fun v => ((List.replicate n v).getD j 0))
      = l.map id := List.map_congr_left fun v hv => getD_replicate_of_lt hj v 0
    _ = l := List.map_id _

/-- C4: in every successfully written file pair, every row of the U file's
`nav_lon` equals the 1-D `lon_u` line and every column of the U file's
`nav_lat` equals the 1-D `lat_u` line; symmetrically, every row of the V
file's `nav_lon` equals the `lon_v` line and every column of its `nav_lat`
equals the `lat_v` line. -/
theorem C4_broadcast_rows_cols {g : NEMOGrid} {fU fV : NCFile}
    {lu la pv qv : Line} (h : g.write = .ok (fU, fV))
    (hlu : g.lon_u = .a1 lu) (hla : g.lat_u = .a1 la)
    (hpv : g.lon_v = .a1 pv) (hqv : g.lat_v = .a1 qv) :
    (∀ row ∈ fU.navRows "nav_lon", row = lu) ∧
    (∀ j, j < g.x - 1 → colOf (fU.navRows "nav_lat") j = la) ∧
    (∀ row ∈ fV.navRows "nav_lon", row = pv) ∧
    (∀ j, j < g.x → colOf (fV.navRows "nav_lat") j = qv) := by
  obtain ⟨dp, tc, lu', la', qv', u0, uL, a0, aL, m2, mV, -, -, -, -, hlonu, -,
    -, -, hlatu, -, -, -, hlatv, -, hlonv, hmVnil, hm2big, hm2small, -, -,
    hfU, hfV⟩ := write_ok_inv h
  rw [hlu] at hlonu
  injection hlonu with he
  subst he
  rw [hla] at hlatu
  injection hlatu with he
  subst he
  rw [hqv] at hlatv
  injection hlatv with he
  subst he
  have hnavU : fU.navRows "nav_lon" = List.replicate g.y lu := by
    rw [hfU]
    simp [NCFile.navRows, List.lookup, NEMOGrid.uRowLoop]
  have hnavUlat : fU.navRows "nav_lat" = m2 := by
    rw [hfU]
    simp [NCFile.navRows, List.lookup]
  have hnavV : fV.navRows "nav_lon" = mV := by
    rw [hfV]
    simp [NCFile.navRows, List.lookup]
  have hnavVlat : fV.navRows "nav_lat" = qv.map fun v => List.replicate g.x v := by
    rw [hfV]
    simp [NCFile.navRows, List.lookup]
  refine ⟨?_, ?_, ?_, ?_⟩
  · intro row hrow
    rw [hnavU] at hrow
    exact List.eq_of_mem_replicate hrow
  · intro j hj
    rcases Nat.lt_or_ge g.x 2 with hx2 | hx2
    · omega
    · rw [hnavUlat, hm2big hx2]
      exact colOf_map_replicate hj
  · intro row hrow
    rw [hnavV] at hrow
    rcases Nat.lt_or_ge g.y 2 with hy2 | hy2
    · rw [hmVnil hy2] at hrow
      simp at hrow
    · obtain ⟨pv', hpv', hpvlen', hmVv⟩ := hlonv hy2
      rw [hpv] at hpv'
      injection hpv' with he
      subst he
      rw [hmVv] at hrow
      rcases List.mem_map.mp hrow with ⟨a, -, hv⟩
      exact hv.symm
  · intro j hj
    rw [hnavVlat]
    exact colOf_map_replicate hj

/-- Witness for C4 at the concrete store `gdemo`. -/
theorem C4_broadcast_rows_cols_witness :
    gdemo.write = .ok (fUdemo, fVdemo) ∧
    ((∀ row ∈ fUdemo.navRows "nav_lon", row = [(0 : ℚ), 1]) ∧
     (∀ j, j < gdemo.x - 1 →
       colOf (fUdemo.navRows "nav_lat") j = [(0 : ℚ), 1, 2]) ∧
     (∀ row ∈ fVdemo.navRows "nav_lon", row = [(0 : ℚ), 1, 2]) ∧
     (∀ j, j < gdemo.x → colOf (fVdemo.navRows "nav_lat") j = [(0 : ℚ), 1])) := by
  have h : gdemo.write = .ok (fUdemo, fVdemo) := by rfl
  exact ⟨h, C4_broadcast_rows_cols h rfl rfl rfl rfl⟩

end Parcels
